import Mathlib

/-!
Shallow embedding of the landscape-design core (src/src/models/plant.py,
src/src/models/site.py, src/src/models/design_algorithm.py, src/src/main.py).
Python floats are modelled as exact rationals, Python dicts as
insertion-ordered association lists, Python `None` as `Option.none`, and a
raised-and-uncaught arithmetic fault as `Except.error`.
-/

attribute [local semireducible] Rat.inv Rat.mul Rat.add Rat.sub Rat.ofScientific

namespace Trees

/-! ## Python string parsing helpers

`Plant._zone_to_numeric` calls Python `int(...)` and `float(...)` on pieces of
the zone string and swallows every exception.  We model the string work on
`List Char` with structural recursion: `pyIntChars`/`pyFloatChars` return
`none` exactly where Python's `int`/`float` would raise on a plain decimal
literal. -/

/-- Digits-only parse: `some` iff the character list is non-empty and all
decimal digits (the strings Python `int` accepts after sign stripping). -/
def digitsToNat (cs : List Char) : Option Nat :=
  if cs ≠ [] ∧ cs.all (fun c => c.isDigit) then
    some (cs.foldl (fun a c => a * 10 + (c.toNat - 48)) 0)
  else none

/-- Python whitespace stripping (`str.strip`). -/
def trimChars (cs : List Char) : List Char :=
  ((cs.dropWhile (fun c => c.isWhitespace)).reverse.dropWhile
    (fun c => c.isWhitespace)).reverse

/-- Python `int(s)` on a decimal literal: strip, optional sign, digits. -/
def pyIntChars (cs : List Char) : Option Int :=
  match trimChars cs with
  | '-' :: rest => (digitsToNat rest).map (fun n => -(n : Int))
  | '+' :: rest => (digitsToNat rest).map (fun n => (n : Int))
  | rest => (digitsToNat rest).map (fun n => (n : Int))

/-- Split a character list at every occurrence of `sep` (Python
`str.split(sep)` with a one-character separator). -/
def splitOnChar (sep : Char) : List Char → List (List Char)
  | [] => [[]]
  | c :: rest =>
    if c = sep then [] :: splitOnChar sep rest
    else
      match splitOnChar sep rest with
      | [] => [[c]]
      | h :: t => (c :: h) :: t

/-- Python `float(s)` on a plain decimal literal: strip, optional sign,
`digits`, `digits.digits`, `digits.` or `.digits`. -/
def pyFloatChars (cs : List Char) : Option ℚ :=
  let withSign : List Char → Option ℚ := fun body =>
    match splitOnChar '.' body with
    | [a] => (digitsToNat a).map (fun n => (n : ℚ))
    | [a, b] =>
      match a, b with
      | [], [] => none
      | [], _ => (digitsToNat b).map (fun n => (n : ℚ) / (10 : ℚ) ^ b.length)
      | _, [] => (digitsToNat a).map (fun n => (n : ℚ))
      | _, _ =>
        match digitsToNat a, digitsToNat b with
        | some n, some m => some ((n : ℚ) + (m : ℚ) / (10 : ℚ) ^ b.length)
        | _, _ => none
    | _ => none
  match trimChars cs with
  | '-' :: rest => (withSign rest).map (fun q => -q)
  | '+' :: rest => withSign rest
  | rest => withSign rest

/-! ## Plant model (src/src/models/plant.py) -/

deriving instance DecidableEq for Except

structure Plant where
  scientific_name : String
  common_name : String
  plant_type : String
  native_range : List String
  usda_hardiness_zone : Option String
  height_range : ℚ × ℚ
  spread_range : ℚ × ℚ
  sun_exposure : List String
  water_needs : Option String
  soil_type : List String
  soil_ph : ℚ × ℚ
  maintenance_level : Option String
deriving DecidableEq

/-- `Plant._zone_to_numeric` on the characters of one zone designation:
`"7a" → 7.0`, `"7b" → 7.5`, plain numerals via `float`; any parse failure is
swallowed by the method's bare `except` and yields `0`. -/
def zoneToNumericChars (cs : List Char) : ℚ :=
  match cs.getLast? with
  | none => 0
  | some last =>
    if last.isAlpha then
      match pyIntChars cs.dropLast with
      | none => 0
      | some base =>
        if last.toLower = 'a' then (base : ℚ)
        else if last.toLower = 'b' then (base : ℚ) + 1 / 2
        else (base : ℚ)
    else
      match pyFloatChars cs with
      | none => 0
      | some v => v

/-- `Plant._zone_to_numeric` on a possibly-absent zone value: subscripting
`None` raises and the bare `except` returns `0`. -/
def zone_to_numeric : Option String → ℚ
  | none => 0
  | some s => zoneToNumericChars s.data

/-- `Plant.is_compatible_with_zone`: a falsy (absent or empty) tolerance is
compatible with everything; otherwise the tolerance is split on `-` into two
endpoints and the target must lie between their numeric values.  In this
typed embedding nothing in the parse branch raises, so the method's
`except: return True` is unreachable. -/
def Plant.is_compatible_with_zone (p : Plant) (zone : Option String) : Bool :=
  match p.usda_hardiness_zone with
  | none => true
  | some hz =>
    if hz = "" then true
    else
      let parts := splitOnChar '-' hz.data
      let min_zone := trimChars (parts.headD [])
      let max_zone := if parts.length > 1 then trimChars (parts.getD 1 []) else min_zone
      let zone_value := zone_to_numeric zone
      let min_zone_value := zoneToNumericChars min_zone
      let max_zone_value := zoneToNumericChars max_zone
      decide (min_zone_value ≤ zone_value ∧ zone_value ≤ max_zone_value)

/-- `Plant.is_compatible_with_soil`: empty tolerance set accepts every soil
type (Python `None in list` is `False`, so an absent site soil type is not a
member), and the pH must lie in the plant's inclusive pH range. -/
def Plant.is_compatible_with_soil (p : Plant) (st : Option String) (ph : ℚ) : Bool :=
  (p.soil_type.isEmpty ||
    (match st with
     | none => false
     | some s => decide (s ∈ p.soil_type))) &&
  decide (p.soil_ph.1 ≤ ph ∧ ph ≤ p.soil_ph.2)

/-- `Plant.is_compatible_with_sun`: empty tolerance set accepts everything. -/
def Plant.is_compatible_with_sun (p : Plant) (c : String) : Bool :=
  p.sun_exposure.isEmpty || decide (c ∈ p.sun_exposure)

/-- `Plant.is_compatible_with_water`: a falsy (absent or empty) tier accepts
everything; otherwise the single tier must equal the condition exactly. -/
def Plant.is_compatible_with_water (p : Plant) (c : String) : Bool :=
  match p.water_needs with
  | none => true
  | some w => w = "" || w = c

/-! ## Site model (src/src/models/site.py) -/

structure Zone where
  id : String
  sun_exposure : String
  water_condition : String
  soil_type : Option String
  soil_ph : ℚ
  area : ℚ
  percentage : ℚ
deriving DecidableEq

structure Site where
  name : String
  width : ℚ
  length : ℚ
  soil_type : Option String
  soil_ph : ℚ
  sun_exposure : List (String × ℚ)
  water_conditions : List (String × ℚ)
  hardiness_zone : Option String
  zones : List Zone
deriving DecidableEq

def Site.get_total_area (s : Site) : ℚ := s.width * s.length

/-- `Site.get_sun_exposure_percentage`: `0` for an empty mapping or a
zero-area site (both guards are explicit in the source). -/
def Site.get_sun_exposure_percentage (s : Site) (exposure_type : String) : ℚ :=
  if s.sun_exposure.isEmpty then 0
  else if s.get_total_area = 0 then 0
  else
    (((s.sun_exposure.filter (fun kv => kv.1 = exposure_type)).map
        (fun kv => kv.2)).sum / s.get_total_area) * 100

/-- `Site.get_water_condition_percentage`: same two guards as the sun
helper. -/
def Site.get_water_condition_percentage (s : Site) (condition_type : String) : ℚ :=
  if s.water_conditions.isEmpty then 0
  else if s.get_total_area = 0 then 0
  else
    (((s.water_conditions.filter (fun kv => kv.1 = condition_type)).map
        (fun kv => kv.2)).sum / s.get_total_area) * 100

structure Verdict where
  overall_score : ℚ
  zone_compatible : Bool
  soil_compatible : Bool
  sun_compatible : Bool
  water_compatible : Bool
deriving DecidableEq

/-- `Site.is_suitable_for_plant`: the four compatibility flags (sun/water are
true when any declared site category matches, or when the mapping is absent)
and the weighted 30/30/20/20 score summed over the true flags. -/
def Site.is_suitable_for_plant (site : Site) (p : Plant) : Verdict :=
  let zone_compatible := p.is_compatible_with_zone site.hardiness_zone
  let soil_compatible := p.is_compatible_with_soil site.soil_type site.soil_ph
  let sun_compatible :=
    if site.sun_exposure.isEmpty then true
    else site.sun_exposure.any (fun kv => p.is_compatible_with_sun kv.1)
  let water_compatible :=
    if site.water_conditions.isEmpty then true
    else site.water_conditions.any (fun kv => p.is_compatible_with_water kv.1)
  let factors : List (Bool × ℚ) :=
    [(zone_compatible, 30), (soil_compatible, 30),
     (sun_compatible, 20), (water_compatible, 20)]
  { overall_score := ((factors.filter (fun f => f.1)).map (fun f => f.2)).sum
    zone_compatible := zone_compatible
    soil_compatible := soil_compatible
    sun_compatible := sun_compatible
    water_compatible := water_compatible }

/-! ## Design algorithm (src/src/models/design_algorithm.py) -/

/-- The configured global algorithm weights (`DesignAlgorithm.__init__`). -/
structure Weights where
  water_needs : ℚ
  soil_compatibility : ℚ
  sun_requirements : ℚ
  native_preference : ℚ
  maintenance_level : ℚ
  aesthetic_value : ℚ

/-- The default weight table from `DesignAlgorithm.__init__`. -/
def defaultWeights : Weights :=
  { water_needs := 25 / 100
    soil_compatibility := 25 / 100
    sun_requirements := 20 / 100
    native_preference := 15 / 100
    maintenance_level := 10 / 100
    aesthetic_value := 5 / 100 }

structure PlantInfo where
  plant : Plant
  suitability : Verdict
deriving DecidableEq

/-- `DesignAlgorithm._filter_compatible_plants`: keep the plants whose global
suitability score exceeds the 50-point threshold, in catalog order. -/
def filter_compatible_plants (site : Site) (plant_database : List Plant) : List PlantInfo :=
  plant_database.filterMap (fun p =>
    let suitability := site.is_suitable_for_plant p
    if suitability.overall_score > 50 then some ⟨p, suitability⟩ else none)

/-- Python truncation `int(x)` on a rational: toward zero. -/
def pyTrunc (q : ℚ) : ℤ := if 0 ≤ q then ⌊q⌋ else ⌈q⌉

/-- Zone generation inner loop of `DesignAlgorithm._create_site_zones`, over
the (sun, water) pairs in nested-loop order.  When the site's total area is 0
the overlap expression divides by zero, which Python raises and nothing in
the algorithm catches: modelled as `Except.error`. -/
def create_zones_go (total : ℚ) (soil_type : Option String) (soil_ph : ℚ) :
    List ((String × ℚ) × (String × ℚ)) → Nat → Except Unit (List Zone)
  | [], _ => .ok []
  | ((sun_type, sun_area), (water_type, water_area)) :: rest, zone_id =>
    if total = 0 then .error ()
    else if sun_area / total * (water_area / total) * total > 0 then
      match create_zones_go total soil_type soil_ph rest (zone_id + 1) with
      | .error e => .error e
      | .ok zs =>
        .ok ({ id := "zone_" ++ toString zone_id
               sun_exposure := sun_type
               water_condition := water_type
               soil_type := soil_type
               soil_ph := soil_ph
               area := sun_area / total * (water_area / total) * total
               percentage := sun_area / total * (water_area / total) * total / total * 100 } :: zs)
    else create_zones_go total soil_type soil_ph rest zone_id

/-- `DesignAlgorithm._create_site_zones`: a caller-supplied zone list wins;
otherwise the Cartesian product of sun and water categories with positive
estimated overlap, or a single default full-site zone if that is empty. -/
def create_site_zones (site : Site) : Except Unit (List Zone) :=
  if !site.zones.isEmpty then .ok site.zones
  else
    let pairs := site.sun_exposure.flatMap
      (fun se => site.water_conditions.map (fun wc => (se, wc)))
    match create_zones_go site.get_total_area site.soil_type site.soil_ph pairs 1 with
    | .error e => .error e
    | .ok [] =>
      .ok [{ id := "zone_1"
             sun_exposure := "full_sun"
             water_condition := "medium"
             soil_type := site.soil_type
             soil_ph := site.soil_ph
             area := site.get_total_area
             percentage := 100 }]
    | .ok zs => .ok zs

structure ScoredPlant where
  plant : Plant
  score : ℚ
  zone_id : String
deriving DecidableEq

/-- Loop body of `DesignAlgorithm._score_plants_for_zone`: the zone-local
bonus (each configured weight scaled ×100, the maintenance weight ×100 or
×50) combined 40/60 with the global suitability score. -/
def score_entry (w : Weights) (zone : Zone) (pi : PlantInfo) : ScoredPlant :=
  let base_suitability := pi.suitability.overall_score
  let zone_score :=
    (if pi.plant.is_compatible_with_sun zone.sun_exposure then w.sun_requirements * 100 else 0)
    + (if pi.plant.is_compatible_with_water zone.water_condition then w.water_needs * 100 else 0)
    + (if pi.plant.is_compatible_with_soil zone.soil_type zone.soil_ph then w.soil_compatibility * 100 else 0)
    + (if "Arkansas" ∈ pi.plant.native_range ∨ "AR" ∈ pi.plant.native_range then w.native_preference * 100 else 0)
    + (if pi.plant.maintenance_level = some "low" then w.maintenance_level * 100
       else if pi.plant.maintenance_level = some "medium" then w.maintenance_level * 50
       else 0)
  { plant := pi.plant
    score := base_suitability * (4 / 10) + zone_score * (6 / 10)
    zone_id := zone.id }

/-- Descending-score ordering used by the scorer's stable sort. -/
def scoreGe (a b : ScoredPlant) : Prop := b.score ≤ a.score

instance : DecidableRel scoreGe :=
  fun a b => inferInstanceAs (Decidable (b.score ≤ a.score))

instance : IsTotal ScoredPlant scoreGe := ⟨fun a b => le_total b.score a.score⟩

instance : IsTrans ScoredPlant scoreGe := ⟨fun _ _ _ h1 h2 => le_trans h2 h1⟩

/-- `DesignAlgorithm._score_plants_for_zone`: score each compatible plant in
catalog order, then `list.sort(key=score, reverse=True)` — a stable
descending sort, modelled by insertion sort over the non-strict ordering
(any stable sort of a total preorder yields the same list). -/
def score_plants_for_zone (w : Weights) (zone : Zone) (compatible_plants : List PlantInfo) :
    List ScoredPlant :=
  List.insertionSort scoreGe (compatible_plants.map (score_entry w zone))

structure Selection where
  plant : Plant
  score : ℚ
  quantity : Nat
  zone_id : String
deriving DecidableEq

/-- `DesignAlgorithm._calculate_plant_quantity`: density tier from the mean
spread, `int((area/100)*density)`, floored up to 1. -/
def calculate_plant_quantity (p : Plant) (area : ℚ) : Nat :=
  let avg_spread := (p.spread_range.1 + p.spread_range.2) / 2
  let plants_per_100sqft : ℚ :=
    if avg_spread ≤ 1 then 16
    else if avg_spread ≤ 3 then 4
    else if avg_spread ≤ 6 then 1
    else 1 / 4
  (max 1 (pyTrunc (area / 100 * plants_per_100sqft))).toNat

/-- The selection record appended by `_select_plants_for_zone`. -/
def selection_of (zone : Zone) (sp : ScoredPlant) : Selection :=
  { plant := sp.plant
    score := sp.score
    quantity := calculate_plant_quantity sp.plant zone.area
    zone_id := zone.id }

/-- Selection loop of `DesignAlgorithm._select_plants_for_zone`: stop at the
target count, skip a candidate whose category count has reached the
diversity threshold, otherwise accept it and bump its category count. -/
def select_go (zone : Zone) (target_count : ℤ) (threshold : ℚ) :
    List ScoredPlant → List Selection → (String → Nat) → List Selection
  | [], selected, _ => selected
  | sp :: rest, selected, counts =>
    if (selected.length : ℤ) ≥ target_count then selected
    else if (counts sp.plant.plant_type : ℚ) ≥ threshold then
      select_go zone target_count threshold rest selected counts
    else
      select_go zone target_count threshold rest (selected ++ [selection_of zone sp])
        (fun t => if t = sp.plant.plant_type then counts t + 1 else counts t)

/-- `DesignAlgorithm._select_plants_for_zone`:
`target = max(1, min(max_plants, int(area/100)+1))`, category threshold
`target * (1 - diversity_factor)`. -/
def select_plants_for_zone (zone : Zone) (scored_plants : List ScoredPlant)
    (max_plants : ℤ) (diversity_factor : ℚ) : List Selection :=
  let area_based_count := min max_plants (pyTrunc (zone.area / 100) + 1)
  let target_count := max 1 area_based_count
  select_go zone target_count ((target_count : ℚ) * (1 - diversity_factor))
    scored_plants [] (fun _ => 0)

/-! ## Statistics aggregator and full pipeline -/

structure Statistics where
  total_plants : Nat
  plant_types : List (String × Nat)
  native_percentage : ℚ
  water_usage_score : ℚ
  maintenance_score : ℚ
  biodiversity_score : Nat
deriving DecidableEq

structure ZoneDesign where
  zone_id : String
  characteristics : Zone
  plants : List Selection
deriving DecidableEq

structure Design where
  site : Site
  zones : List ZoneDesign
  plant_selections : List Selection
  statistics : Statistics
deriving DecidableEq

/-- `defaultdict(int)` increment: bump an existing key in place or append a
fresh one (insertion order preserved). -/
def bump_type (t : String) (q : Nat) : List (String × Nat) → List (String × Nat)
  | [] => [(t, q)]
  | (a, n) :: rest => if a = t then (a, n + q) :: rest else (a, n) :: bump_type t q rest

/-- The per-category quantity totals accumulated by the statistics loop, in
first-occurrence order. -/
def accum_types : List Selection → List (String × Nat) → List (String × Nat)
  | [], acc => acc
  | s :: rest, acc => accum_types rest (bump_type s.plant.plant_type s.quantity acc)

/-- Regional-native test used by both the zone scorer and the statistics
loop: the native-range set meets {"Arkansas", "AR"}. -/
def native_to_region (p : Plant) : Bool :=
  decide ("Arkansas" ∈ p.native_range) || decide ("AR" ∈ p.native_range)

/-- Water tier weight of the statistics loop: low 1, medium 2, high 3, any
other (or absent) tier contributes nothing. -/
def water_weight (p : Plant) : Nat :=
  if p.water_needs = some "low" then 1
  else if p.water_needs = some "medium" then 2
  else if p.water_needs = some "high" then 3
  else 0

/-- Maintenance tier weight of the statistics loop, same 1/2/3 scale. -/
def maintenance_weight (p : Plant) : Nat :=
  if p.maintenance_level = some "low" then 1
  else if p.maintenance_level = some "medium" then 2
  else if p.maintenance_level = some "high" then 3
  else 0

def total_quantity (sels : List Selection) : Nat := (sels.map (fun s => s.quantity)).sum

def native_quantity (sels : List Selection) : Nat :=
  ((sels.filter (fun s => native_to_region s.plant)).map (fun s => s.quantity)).sum

def water_sum (sels : List Selection) : Nat :=
  (sels.map (fun s => s.quantity * water_weight s.plant)).sum

def maintenance_sum (sels : List Selection) : Nat :=
  (sels.map (fun s => s.quantity * maintenance_weight s.plant)).sum

/-- `DesignAlgorithm._calculate_design_statistics`: one pass over every
(zone, selection) pair; the three ratio fields stay `0` when the total
quantity is `0` (the source's `if total_plants > 0` guard). -/
def calculate_design_statistics (zones : List ZoneDesign) : Statistics :=
  let sels := zones.flatMap (fun zd => zd.plants)
  let total := total_quantity sels
  let types := accum_types sels []
  { total_plants := total
    plant_types := types
    native_percentage :=
      if total > 0 then ((native_quantity sels : ℚ) / (total : ℚ)) * 100 else 0
    water_usage_score :=
      if total > 0 then (water_sum sels : ℚ) / (total : ℚ) else 0
    maintenance_score :=
      if total > 0 then (maintenance_sum sels : ℚ) / (total : ℚ) else 0
    biodiversity_score := min 100 (types.length * 10) }

/-- The `plant_selection not in design["plant_selections"]` de-duplication
of `generate_design`, preserving first-occurrence order. -/
def dedup_go : List Selection → List Selection → List Selection
  | [], acc => acc
  | s :: rest, acc => if s ∈ acc then dedup_go rest acc else dedup_go rest (acc ++ [s])

structure DesignParams where
  plants_per_zone : ℤ
  diversity_factor : ℚ

/-- `design_parameters.get('plants_per_zone', 5)` / `.get('diversity_factor', 0.7)`. -/
def defaultParams : DesignParams := { plants_per_zone := 5, diversity_factor := 7 / 10 }

/-- `DesignAlgorithm.generate_design`: filter the catalog, partition into
zones (which may raise on a zero-area site), score + select + quantify per
zone, de-duplicate the flat selection list, aggregate statistics. -/
def generate_design (w : Weights) (site : Site) (plant_database : List Plant)
    (params : DesignParams) : Except Unit Design :=
  let compatible_plants := filter_compatible_plants site plant_database
  match create_site_zones site with
  | .error e => .error e
  | .ok zones =>
    let zone_designs := zones.map (fun z =>
      let scored_plants := score_plants_for_zone w z compatible_plants
      let selected_plants := select_plants_for_zone z scored_plants
        params.plants_per_zone params.diversity_factor
      ZoneDesign.mk z.id z selected_plants)
    .ok { site := site
          zones := zone_designs
          plant_selections := dedup_go (zone_designs.flatMap (fun zd => zd.plants)) []
          statistics := calculate_design_statistics zone_designs }

/-- `LandscapeDesignTool.generate_design` (src/src/main.py): an empty plant
database returns `None` before the algorithm runs; any exception raised by
the algorithm is caught at this boundary and also returns `None`. -/
def app_generate_design (site : Site) (plant_database : List Plant)
    (params : DesignParams) : Option Design :=
  if plant_database.isEmpty then none
  else
    match generate_design defaultWeights site plant_database params with
    | .ok design => some design
    | .error _ => none

/-! ## Concrete fixtures used by the closed theorems below -/

/-- A plant whose climate-zone tolerance parses to the range [5, 9]. -/
def plant59 : Plant :=
  { scientific_name := "p", common_name := "p", plant_type := "shrub",
    native_range := [], usda_hardiness_zone := some "5-9",
    height_range := (1, 2), spread_range := (1, 2), sun_exposure := [],
    water_needs := none, soil_type := [], soil_ph := (11 / 2, 15 / 2),
    maintenance_level := none }

/-- A 10×10 site with one all-covering sun category, one zero-area sun
category and two half-area water categories. -/
def site5 : Site :=
  { name := "s5", width := 10, length := 10, soil_type := some "loam",
    soil_ph := 13 / 2, sun_exposure := [("A", 100), ("B", 0)],
    water_conditions := [("X", 50), ("Y", 50)], hardiness_zone := none,
    zones := [] }

/-- A universally tolerant plant with no declared water tier. -/
def plantU : Plant :=
  { scientific_name := "u", common_name := "u", plant_type := "perennial",
    native_range := ["Arkansas"], usda_hardiness_zone := none,
    height_range := (0, 0), spread_range := (0, 0), sun_exposure := [],
    water_needs := none, soil_type := [], soil_ph := (11 / 2, 15 / 2),
    maintenance_level := some "low" }

/-- A 10×10 site with a single sun and a single water category. -/
def site6 : Site :=
  { name := "s6", width := 10, length := 10, soil_type := some "loam",
    soil_ph := 13 / 2, sun_exposure := [("full_sun", 100)],
    water_conditions := [("medium", 100)], hardiness_zone := none, zones := [] }

/-- A zero-area site (width 0) that still declares sun and water areas. -/
def site7 : Site :=
  { name := "s7", width := 0, length := 10, soil_type := some "loam",
    soil_ph := 13 / 2, sun_exposure := [("full_sun", 10)],
    water_conditions := [("medium", 10)], hardiness_zone := none, zones := [] }

/-- A 10×10 site whose declared category areas exceed its total area. -/
def site8 : Site :=
  { name := "s8", width := 10, length := 10, soil_type := some "loam",
    soil_ph := 13 / 2, sun_exposure := [("A", 200)],
    water_conditions := [("X", 200)], hardiness_zone := none, zones := [] }

/-- The end-to-end scenario site: total area 500, one sun and one water
category covering it, so the partitioner emits a single zone of area 500. -/
def site9 : Site :=
  { name := "s9", width := 25, length := 20, soil_type := some "loam",
    soil_ph := 13 / 2, sun_exposure := [("full_sun", 500)],
    water_conditions := [("medium", 500)], hardiness_zone := none, zones := [] }

/-- The end-to-end scenario plant: tolerant of all the site's conditions,
native to the target region, low maintenance, spread 2–3. -/
def plant9 : Plant :=
  { scientific_name := "n", common_name := "n", plant_type := "shrub",
    native_range := ["Arkansas"], usda_hardiness_zone := none,
    height_range := (1, 2), spread_range := (2, 3), sun_exposure := ["full_sun"],
    water_needs := some "medium", soil_type := ["loam"], soil_ph := (11 / 2, 15 / 2),
    maintenance_level := some "low" }

/-- A zone of area 250 used to instantiate the selector theorem. -/
def zoneW : Zone :=
  { id := "zw", sun_exposure := "full_sun", water_condition := "medium",
    soil_type := some "loam", soil_ph := 13 / 2, area := 250, percentage := 50 }

/-- A small ranked candidate list used to instantiate the selector theorem. -/
def scoredW : List ScoredPlant :=
  [{ plant := plant9, score := 97, zone_id := "zw" },
   { plant := plantU, score := 80, zone_id := "zw" }]

/-! ## Theorems for the claims -/

/-- Helper: the 30/30/20/20 factor-table sum in if-then-else form. -/
theorem factor_sum_eq (a b c d : Bool) :
    ((([(a, (30 : ℚ)), (b, 30), (c, 20), (d, 20)].filter (fun f => f.1)).map
        (fun f => f.2)).sum)
      = (if a then (30 : ℚ) else 0) + (if b then 30 else 0)
        + (if c then 20 else 0) + (if d then 20 else 0) := by
  cases a <;> cases b <;> cases c <;> cases d <;> decide

/-- Helper: that sum is ten times a natural number at most ten. -/
theorem factor_sum_mul_of_ten (a b c d : Bool) :
    ∃ n : Nat,
      (if a then (30 : ℚ) else 0) + (if b then 30 else 0)
        + (if c then 20 else 0) + (if d then 20 else 0) = 10 * n ∧ n ≤ 10 := by
  refine ⟨(cond a 3 0) + (cond b 3 0) + (cond c 2 0) + (cond d 2 0), ?_, ?_⟩ <;>
    cases a <;> cases b <;> cases c <;> cases d <;> decide

/-- C3: for every organism and every site, the suitability evaluator's score
is the sum of the weights 30 (climate zone), 30 (soil), 20 (sun), 20 (water)
over exactly the dimensions whose predicate holds — sun/water holding when
any site sun/water category is compatible or when the site declares no such
mapping — and the score is a multiple of 10 in [0, 100]. -/
theorem c3_suitability_score (site : Site) (p : Plant) :
    ((site.is_suitable_for_plant p).overall_score =
      (if p.is_compatible_with_zone site.hardiness_zone then (30 : ℚ) else 0)
      + (if p.is_compatible_with_soil site.soil_type site.soil_ph then 30 else 0)
      + (if (if site.sun_exposure.isEmpty then true
             else site.sun_exposure.any fun kv => p.is_compatible_with_sun kv.1)
         then 20 else 0)
      + (if (if site.water_conditions.isEmpty then true
             else site.water_conditions.any fun kv => p.is_compatible_with_water kv.1)
         then 20 else 0))
    ∧ ∃ n : Nat, (site.is_suitable_for_plant p).overall_score = 10 * n ∧ n ≤ 10 := by
  constructor
  · exact factor_sum_eq _ _ _ _
  · rw [show (site.is_suitable_for_plant p).overall_score
        = ((([(p.is_compatible_with_zone site.hardiness_zone, (30 : ℚ)),
              (p.is_compatible_with_soil site.soil_type site.soil_ph, 30),
              ((if site.sun_exposure.isEmpty then true
                else site.sun_exposure.any fun kv => p.is_compatible_with_sun kv.1), 20),
              ((if site.water_conditions.isEmpty then true
                else site.water_conditions.any fun kv => p.is_compatible_with_water kv.1),
                20)].filter (fun f => f.1)).map (fun f => f.2)).sum) from rfl,
      factor_sum_eq]
    exact factor_sum_mul_of_ten _ _ _ _

/-- Helper: inserting an element with the filtered score puts it in front of
the other elements with that score (the elements it is placed behind are
strictly greater). -/
theorem filter_orderedInsert_eq (q : ℚ) (a : ScoredPlant) (l : List ScoredPlant)
    (ha : a.score = q) :
    (List.orderedInsert scoreGe a l).filter (fun s => decide (s.score = q))
      = a :: l.filter (fun s => decide (s.score = q)) := by
  induction l with
  | nil => simp [List.orderedInsert, ha]
  | cons b t ih =>
    by_cases h : scoreGe a b
    · simp [List.orderedInsert, h, ha]
    · have hb : ¬ b.score = q := by
        intro hbq
        exact h (le_of_eq (hbq.trans ha.symm))
      simp [List.orderedInsert, h, hb, ih]

/-- Helper: inserting an element with a different score leaves the filtered
sub-list untouched. -/
theorem filter_orderedInsert_ne (q : ℚ) (a : ScoredPlant) (l : List ScoredPlant)
    (ha : ¬ a.score = q) :
    (List.orderedInsert scoreGe a l).filter (fun s => decide (s.score = q))
      = l.filter (fun s => decide (s.score = q)) := by
  induction l with
  | nil => simp [List.orderedInsert, ha]
  | cons b t ih =>
    by_cases h : scoreGe a b
    · simp [List.orderedInsert, h, ha]
    · simp only [List.orderedInsert, if_neg h, List.filter_cons, ih]

/-- Helper: the scorer's stable sort preserves, for every score value, the
relative order of the equally-scored elements. -/
theorem filter_insertionSort_eq (q : ℚ) (l : List ScoredPlant) :
    (List.insertionSort scoreGe l).filter (fun s => decide (s.score = q))
      = l.filter (fun s => decide (s.score = q)) := by
  induction l with
  | nil => rfl
  | cons a t ih =>
    by_cases ha : a.score = q
    · rw [List.insertionSort, filter_orderedInsert_eq q a _ ha, ih]
      simp [ha]
    · rw [List.insertionSort, filter_orderedInsert_ne q a _ ha, ih]
      simp [ha]

/-- C1: under the default configuration, every scored entry for a zone
carries 0.4 × the global suitability score plus 0.6 × the zone bonus
(20 sun + 25 water + 25 soil + 15 regional-native + 10 low-maintenance / 5
medium); the scorer's output is sorted descending by final score, and for
every score value the equally-scored entries keep their catalog order
(stability). -/
theorem c1_zone_scorer (zone : Zone) (compatible_plants : List PlantInfo) :
    (∀ sp ∈ score_plants_for_zone defaultWeights zone compatible_plants,
      ∃ pi ∈ compatible_plants, sp.plant = pi.plant ∧
        sp.score = (4 / 10) * pi.suitability.overall_score
          + (6 / 10) *
            ((if pi.plant.is_compatible_with_sun zone.sun_exposure then (20 : ℚ) else 0)
            + (if pi.plant.is_compatible_with_water zone.water_condition then 25 else 0)
            + (if pi.plant.is_compatible_with_soil zone.soil_type zone.soil_ph then 25 else 0)
            + (if "Arkansas" ∈ pi.plant.native_range ∨ "AR" ∈ pi.plant.native_range
               then 15 else 0)
            + (if pi.plant.maintenance_level = some "low" then 10
               else if pi.plant.maintenance_level = some "medium" then 5 else 0)))
    ∧ List.Sorted scoreGe (score_plants_for_zone defaultWeights zone compatible_plants)
    ∧ ∀ q : ℚ,
        (score_plants_for_zone defaultWeights zone compatible_plants).filter
            (fun s => decide (s.score = q))
          = (compatible_plants.map (score_entry defaultWeights zone)).filter
            (fun s => decide (s.score = q)) := by
  refine ⟨?_, ?_, ?_⟩
  · intro sp hsp
    have hmem : sp ∈ compatible_plants.map (score_entry defaultWeights zone) :=
      (List.mem_insertionSort scoreGe).mp hsp
    obtain ⟨pi, hpi, rfl⟩ := List.mem_map.mp hmem
    refine ⟨pi, hpi, rfl, ?_⟩
    simp only [score_entry, defaultWeights]
    norm_num
    ring
  · exact List.sorted_insertionSort scoreGe _
  · intro q
    exact filter_insertionSort_eq q _

/-- Number of accepted selections of one plant category (the running
`plant_types` counter of the selection loop, read off the result). -/
def count_of_type (sels : List Selection) (t : String) : Nat :=
  (sels.filter (fun s => decide (s.plant.plant_type = t))).length

theorem count_of_type_append (sels more : List Selection) (t : String) :
    count_of_type (sels ++ more) t = count_of_type sels t + count_of_type more t := by
  simp [count_of_type, List.filter_append]

theorem count_of_type_single (zone : Zone) (sp : ScoredPlant) (t : String) :
    count_of_type [selection_of zone sp] t
      = if sp.plant.plant_type = t then 1 else 0 := by
  by_cases h : sp.plant.plant_type = t <;> simp [count_of_type, selection_of, h]

/-- Helper: the selection loop only ever appends to its accumulator. -/
theorem select_go_prefix (zone : Zone) (target : ℤ) (threshold : ℚ) :
    ∀ (ps : List ScoredPlant) (sel : List Selection) (counts : String → Nat),
      ∃ suffix, select_go zone target threshold ps sel counts = sel ++ suffix
  | [], sel, counts => ⟨[], by simp [select_go]⟩
  | sp :: rest, sel, counts => by
    rw [select_go]
    split_ifs with h1 h2
    · exact ⟨[], by simp⟩
    · exact select_go_prefix zone target threshold rest sel counts
    · obtain ⟨suffix, hs⟩ := select_go_prefix zone target threshold rest
        (sel ++ [selection_of zone sp])
        (fun t => if t = sp.plant.plant_type then counts t + 1 else counts t)
      exact ⟨[selection_of zone sp] ++ suffix, by rw [hs, List.append_assoc]⟩

/-- Helper: the selection loop never exceeds the larger of the accumulator's
size and the target count. -/
theorem select_go_length (zone : Zone) (target : ℤ) (threshold : ℚ) :
    ∀ (ps : List ScoredPlant) (sel : List Selection) (counts : String → Nat),
      ((select_go zone target threshold ps sel counts).length : ℤ)
        ≤ max (sel.length : ℤ) target
  | [], sel, counts => by simp [select_go]
  | sp :: rest, sel, counts => by
    rw [select_go]
    split_ifs with h1 h2
    · exact le_max_left _ _
    · exact select_go_length zone target threshold rest sel counts
    · have hlt : (sel.length : ℤ) < target := lt_of_not_ge h1
      have ih := select_go_length zone target threshold rest
        (sel ++ [selection_of zone sp])
        (fun t => if t = sp.plant.plant_type then counts t + 1 else counts t)
      have hlen : (((sel ++ [selection_of zone sp]).length : Nat) : ℤ)
          = (sel.length : ℤ) + 1 := by
        simp
      rw [hlen] at ih
      have : max ((sel.length : ℤ) + 1) target = target := max_eq_right (by omega)
      rw [this] at ih
      exact le_trans ih (le_max_right _ _)

/-- Helper: the category-cap invariant — every accepted selection was
accepted while its category count was still below the threshold, so in the
final list every non-zero category count minus one is below the threshold. -/
theorem select_go_cap (zone : Zone) (target : ℤ) (threshold : ℚ) :
    ∀ (ps : List ScoredPlant) (sel : List Selection) (counts : String → Nat),
      (∀ t, counts t = count_of_type sel t) →
      (∀ t, count_of_type sel t = 0 ∨ (count_of_type sel t : ℚ) - 1 < threshold) →
      ∀ t, count_of_type (select_go zone target threshold ps sel counts) t = 0
        ∨ (count_of_type (select_go zone target threshold ps sel counts) t : ℚ) - 1
            < threshold
  | [], sel, counts, _, hinv, t => by
    rw [select_go]
    exact hinv t
  | sp :: rest, sel, counts, hc, hinv, t => by
    rw [select_go]
    split_ifs with h1 h2
    · exact hinv t
    · exact select_go_cap zone target threshold rest sel counts hc hinv t
    · have hth : (counts sp.plant.plant_type : ℚ) < threshold := lt_of_not_ge h2
      refine select_go_cap zone target threshold rest _ _ ?_ ?_ t
      · intro u
        by_cases hu : u = sp.plant.plant_type <;>
          simp [hu, count_of_type_append, count_of_type_single, hc u, hc] <;>
          simp [eq_comm] at hu ⊢ <;> simp [hu]
      · intro u
        rw [count_of_type_append, count_of_type_single]
        by_cases hu : sp.plant.plant_type = u
        · right
          rw [if_pos hu, ← hc u, ← hu]
          push_cast
          linarith
        · rw [if_neg hu]
          simpa using hinv u

/-- Helper: when the loop ends under-filled, every scanned candidate was
either accepted or blocked — and a blocked candidate's category count in the
final list is at or above the threshold. -/
theorem select_go_underfill (zone : Zone) (target : ℤ) (threshold : ℚ) :
    ∀ (ps : List ScoredPlant) (sel : List Selection) (counts : String → Nat),
      (∀ t, counts t = count_of_type sel t) →
      ((select_go zone target threshold ps sel counts).length : ℤ) < target →
      ∀ sp ∈ ps,
        selection_of zone sp ∈ select_go zone target threshold ps sel counts
        ∨ (count_of_type (select_go zone target threshold ps sel counts)
              sp.plant.plant_type : ℚ) ≥ threshold
  | [], sel, counts, _, _, sp, hsp => absurd hsp (List.not_mem_nil sp)
  | sp' :: rest, sel, counts, hc, hlen, sp, hsp => by
    rw [select_go] at hlen ⊢
    split_ifs at hlen ⊢ with h1 h2
    · exact absurd (lt_of_le_of_lt h1 hlen) (lt_irrefl _)
    · rcases List.mem_cons.mp hsp with hhd | htl
      · right
        obtain ⟨suffix, hsfx⟩ :=
          select_go_prefix zone target threshold rest sel counts
        rw [hsfx, hhd, count_of_type_append]
        have : threshold ≤ (counts sp'.plant.plant_type : ℚ) := h2
        rw [hc sp'.plant.plant_type] at this
        refine le_trans this ?_
        push_cast
        linarith [Nat.zero_le (count_of_type suffix sp'.plant.plant_type)]
      · exact select_go_underfill zone target threshold rest sel counts hc hlen sp htl
    · have hc' : ∀ t,
          (fun t => if t = sp'.plant.plant_type then counts t + 1 else counts t) t
            = count_of_type (sel ++ [selection_of zone sp']) t := by
        intro u
        by_cases hu : u = sp'.plant.plant_type <;>
          simp [hu, count_of_type_append, count_of_type_single, hc u, hc] <;>
          simp [eq_comm] at hu ⊢ <;> simp [hu]
      rcases List.mem_cons.mp hsp with hhd | htl
      · left
        obtain ⟨suffix, hsfx⟩ :=
          select_go_prefix zone target threshold rest
            (sel ++ [selection_of zone sp'])
            (fun t => if t = sp'.plant.plant_type then counts t + 1 else counts t)
        rw [hsfx, hhd]
        exact List.mem_append_left _ (List.mem_append_right _ (List.mem_singleton.mpr rfl))
      · exact select_go_underfill zone target threshold rest _ _ hc' hlen sp htl

/-- Python `int` truncation agrees with the floor on non-negative inputs. -/
theorem pyTrunc_eq_floor (q : ℚ) (h : 0 ≤ q) : pyTrunc q = ⌊q⌋ := if_pos h

/-- C2: for every zone with non-negative area, every ranked candidate list,
positive per-zone cap P and diversity factor d ∈ [0, 1], the selector
accepts at most `target = max(1, min(P, ⌊area/100⌋ + 1))` organisms; every
non-zero category count c in the result satisfies c − 1 < target × (1 − d)
(no organism was accepted once its category count had reached the
threshold); and when the zone ends under-filled every candidate was either
accepted or blocked, its final category count at or above the threshold. -/
theorem c2_selector (zone : Zone) (scored_plants : List ScoredPlant) (P : ℤ) (d : ℚ)
    (hA : 0 ≤ zone.area) (hP : 1 ≤ P) (hd0 : 0 ≤ d) (hd1 : d ≤ 1) :
    ((select_plants_for_zone zone scored_plants P d).length : ℤ)
        ≤ max 1 (min P (⌊zone.area / 100⌋ + 1))
    ∧ (∀ t : String,
        count_of_type (select_plants_for_zone zone scored_plants P d) t = 0
        ∨ (count_of_type (select_plants_for_zone zone scored_plants P d) t : ℚ) - 1
            < ((max 1 (min P (⌊zone.area / 100⌋ + 1)) : ℤ) : ℚ) * (1 - d))
    ∧ (((select_plants_for_zone zone scored_plants P d).length : ℤ)
          < max 1 (min P (⌊zone.area / 100⌋ + 1)) →
        ∀ sp ∈ scored_plants,
          selection_of zone sp ∈ select_plants_for_zone zone scored_plants P d
          ∨ (count_of_type (select_plants_for_zone zone scored_plants P d)
                sp.plant.plant_type : ℚ)
              ≥ ((max 1 (min P (⌊zone.area / 100⌋ + 1)) : ℤ) : ℚ) * (1 - d)) := by
  have htr : pyTrunc (zone.area / 100) = ⌊zone.area / 100⌋ :=
    pyTrunc_eq_floor _ (by positivity)
  have hsel : select_plants_for_zone zone scored_plants P d
      = select_go zone (max 1 (min P (⌊zone.area / 100⌋ + 1)))
          (((max 1 (min P (⌊zone.area / 100⌋ + 1)) : ℤ) : ℚ) * (1 - d))
          scored_plants [] (fun _ => 0) := by
    unfold select_plants_for_zone
    rw [htr]
  have hc0 : ∀ t, (fun _ => 0 : String → Nat) t = count_of_type [] t := by
    intro t; rfl
  refine ⟨?_, ?_, ?_⟩
  · rw [hsel]
    have := select_go_length zone (max 1 (min P (⌊zone.area / 100⌋ + 1)))
      (((max 1 (min P (⌊zone.area / 100⌋ + 1)) : ℤ) : ℚ) * (1 - d))
      scored_plants [] (fun _ => 0)
    simpa using this
  · intro t
    rw [hsel]
    exact select_go_cap zone _ _ scored_plants [] (fun _ => 0) hc0
      (fun u => Or.inl rfl) t
  · rw [hsel]
    intro hlen sp hsp
    exact select_go_underfill zone _ _ scored_plants [] (fun _ => 0) hc0 hlen sp hsp

/-- C2 witness: the selector theorem instantiated at a concrete zone of area
250, a two-candidate list, P = 5 and d = 0.7. -/
theorem c2_selector_witness :
    ((select_plants_for_zone zoneW scoredW 5 (7 / 10)).length : ℤ)
        ≤ max 1 (min 5 (⌊zoneW.area / 100⌋ + 1))
    ∧ (∀ t : String,
        count_of_type (select_plants_for_zone zoneW scoredW 5 (7 / 10)) t = 0
        ∨ (count_of_type (select_plants_for_zone zoneW scoredW 5 (7 / 10)) t : ℚ) - 1
            < ((max 1 (min 5 (⌊zoneW.area / 100⌋ + 1)) : ℤ) : ℚ) * (1 - 7 / 10))
    ∧ (((select_plants_for_zone zoneW scoredW 5 (7 / 10)).length : ℤ)
          < max 1 (min 5 (⌊zoneW.area / 100⌋ + 1)) →
        ∀ sp ∈ scoredW,
          selection_of zoneW sp ∈ select_plants_for_zone zoneW scoredW 5 (7 / 10)
          ∨ (count_of_type (select_plants_for_zone zoneW scoredW 5 (7 / 10))
                sp.plant.plant_type : ℚ)
              ≥ ((max 1 (min 5 (⌊zoneW.area / 100⌋ + 1)) : ℤ) : ℚ) * (1 - 7 / 10)) :=
  c2_selector zoneW scoredW 5 (7 / 10) (by decide) (by decide) (by decide) (by decide)

/-- C4 counterexample: an organism with tolerance "5-9" is reported
incompatible with an absent and with a malformed target zone value — both
are parsed to the sentinel 0 instead of raising — although it is compatible
with "7a", so its own tolerance parses normally. -/
theorem c4_counterexample :
    plant59.usda_hardiness_zone = some "5-9"
    ∧ plant59.is_compatible_with_zone none = false
    ∧ plant59.is_compatible_with_zone (some "abc") = false
    ∧ plant59.is_compatible_with_zone (some "7a") = true := by decide

/-- C4 amended: the predicate returns true whenever the organism declares no
zone tolerance (absent or empty); a malformed or absent target zone value is
parsed to the numeric sentinel 0 rather than raising, so any target that
parses to 0 behaves exactly like an absent target and can be reported
incompatible when 0 lies outside the organism's tolerance range. -/
theorem c4_amended (p : Plant) (z : Option String) :
    ((p.usda_hardiness_zone = none ∨ p.usda_hardiness_zone = some "") →
      p.is_compatible_with_zone z = true)
    ∧ (zone_to_numeric z = 0 →
      p.is_compatible_with_zone z = p.is_compatible_with_zone none) := by
  constructor
  · rintro (h | h) <;> simp [Plant.is_compatible_with_zone, h]
  · intro h
    cases z with
    | none => rfl
    | some t =>
      have ht : zoneToNumericChars t.data = 0 := h
      unfold Plant.is_compatible_with_zone
      cases p.usda_hardiness_zone with
      | none => rfl
      | some s =>
        by_cases hs : s = "" <;> simp [hs, zone_to_numeric, ht]

/-- C5 counterexample: on sun areas {A:100, B:0} and water areas
{X:50, Y:50} over a positive total area the partitioner emits two zones,
not one. -/
theorem c5_counterexample :
    (create_site_zones site5).toOption.map List.length = some 2 ∧ (2 : Nat) ≠ 1 := by
  decide

/-- C5 amended: the partitioner emits exactly the two zones (A, X) and
(A, Y), each with area (100/100)·(50/100)·TotalArea = 50; no zone involves B
because its area is zero. -/
theorem c5_amended :
    (create_site_zones site5).toOption =
      some [{ id := "zone_1", sun_exposure := "A", water_condition := "X",
              soil_type := some "loam", soil_ph := 13 / 2, area := 50,
              percentage := 50 },
            { id := "zone_2", sun_exposure := "A", water_condition := "Y",
              soil_type := some "loam", soil_ph := 13 / 2, area := 50,
              percentage := 50 }] := by decide

/-- C6 counterexample: a completed design generated from a catalog whose one
organism declares no water tier has positive total quantity (16) but mean
water-usage score 0, outside the claimed [1, 3]. -/
theorem c6_counterexample :
    (generate_design defaultWeights site6 [plantU] defaultParams).toOption.map
        (fun d => (d.statistics.total_plants, d.statistics.water_usage_score))
      = some (16, 0)
    ∧ 0 < (16 : Nat) ∧ ¬ ((1 : ℚ) ≤ 0) := by decide

/-- Helper: the native quantity is a filtered part of the total quantity. -/
theorem native_le_total (sels : List Selection) :
    native_quantity sels ≤ total_quantity sels := by
  induction sels with
  | nil => simp [native_quantity, total_quantity]
  | cons s rest ih =>
    by_cases h : native_to_region s.plant
    · simp only [native_quantity, total_quantity, List.filter_cons, h] at ih ⊢
      simpa using Nat.add_le_add_left ih s.quantity
    · simp only [native_quantity, total_quantity, List.filter_cons,
        Bool.not_eq_true] at ih ⊢
      simp only [h, List.map_cons, List.sum_cons]
      exact le_trans ih (Nat.le_add_left _ _)

theorem water_weight_le_three (p : Plant) : water_weight p ≤ 3 := by
  unfold water_weight
  split_ifs <;> omega

theorem maintenance_weight_le_three (p : Plant) : maintenance_weight p ≤ 3 := by
  unfold maintenance_weight
  split_ifs <;> omega

/-- Helper: the water-weighted sum is at most three times the total
quantity. -/
theorem water_sum_le (sels : List Selection) :
    water_sum sels ≤ 3 * total_quantity sels := by
  induction sels with
  | nil => simp [water_sum, total_quantity]
  | cons s rest ih =>
    simp only [water_sum, total_quantity, List.map_cons, List.sum_cons] at ih ⊢
    have hw : s.quantity * water_weight s.plant ≤ s.quantity * 3 :=
      Nat.mul_le_mul_left _ (water_weight_le_three s.plant)
    omega

/-- Helper: the maintenance-weighted sum is at most three times the total
quantity. -/
theorem maintenance_sum_le (sels : List Selection) :
    maintenance_sum sels ≤ 3 * total_quantity sels := by
  induction sels with
  | nil => simp [maintenance_sum, total_quantity]
  | cons s rest ih =>
    simp only [maintenance_sum, total_quantity, List.map_cons, List.sum_cons] at ih ⊢
    have hw : s.quantity * maintenance_weight s.plant ≤ s.quantity * 3 :=
      Nat.mul_le_mul_left _ (maintenance_weight_le_three s.plant)
    omega

/-- C6 amended: for every design the native percentage lies in [0, 100];
when the total quantity is zero the native percentage and both mean scores
are exactly 0; when it is positive the mean water-usage and maintenance
scores lie in [0, 3] — the claimed lower bound 1 holds only when every
selected organism declares a recognized water/maintenance tier, since an
unset tier contributes weight 0. -/
theorem c6_amended (zones : List ZoneDesign) :
    (0 ≤ (calculate_design_statistics zones).native_percentage
      ∧ (calculate_design_statistics zones).native_percentage ≤ 100)
    ∧ ((calculate_design_statistics zones).total_plants = 0 →
        (calculate_design_statistics zones).native_percentage = 0
        ∧ (calculate_design_statistics zones).water_usage_score = 0
        ∧ (calculate_design_statistics zones).maintenance_score = 0)
    ∧ (0 < (calculate_design_statistics zones).total_plants →
        (0 ≤ (calculate_design_statistics zones).water_usage_score
          ∧ (calculate_design_statistics zones).water_usage_score ≤ 3)
        ∧ (0 ≤ (calculate_design_statistics zones).maintenance_score
          ∧ (calculate_design_statistics zones).maintenance_score ≤ 3)) := by
  unfold calculate_design_statistics
  rcases Nat.eq_zero_or_pos (total_quantity (zones.flatMap fun zd => zd.plants)) with
    h0 | hpos
  · simp [h0]
  · have hne : ¬ (total_quantity (zones.flatMap fun zd => zd.plants) = 0) :=
      Nat.pos_iff_ne_zero.mp hpos
    have htq : (0 : ℚ) < (total_quantity (zones.flatMap fun zd => zd.plants) : ℚ) := by
      exact_mod_cast hpos
    simp only [hpos, if_pos, gt_iff_lt]
    refine ⟨⟨?_, ?_⟩, ?_, ?_⟩
    · positivity
    · have hle : (native_quantity (zones.flatMap fun zd => zd.plants) : ℚ)
          ≤ (total_quantity (zones.flatMap fun zd => zd.plants) : ℚ) := by
        exact_mod_cast native_le_total _
      have hdiv : (native_quantity (zones.flatMap fun zd => zd.plants) : ℚ)
          / (total_quantity (zones.flatMap fun zd => zd.plants) : ℚ) ≤ 1 :=
        (div_le_one htq).mpr hle
      calc (native_quantity (zones.flatMap fun zd => zd.plants) : ℚ)
            / (total_quantity (zones.flatMap fun zd => zd.plants) : ℚ) * 100
          ≤ 1 * 100 := by
            exact mul_le_mul_of_nonneg_right hdiv (by norm_num)
        _ = 100 := by norm_num
    · intro h
      exact absurd h hne
    · intro _
      constructor
      · constructor
        · positivity
        · rw [div_le_iff htq]
          have := water_sum_le (zones.flatMap fun zd => zd.plants)
          push_cast
          exact_mod_cast (by push_cast; exact_mod_cast this :
            (water_sum (zones.flatMap fun zd => zd.plants) : ℚ)
              ≤ 3 * (total_quantity (zones.flatMap fun zd => zd.plants) : ℚ))
      · constructor
        · positivity
        · rw [div_le_iff htq]
          have := maintenance_sum_le (zones.flatMap fun zd => zd.plants)
          exact_mod_cast (by push_cast; exact_mod_cast this :
            (maintenance_sum (zones.flatMap fun zd => zd.plants) : ℚ)
              ≤ 3 * (total_quantity (zones.flatMap fun zd => zd.plants) : ℚ))

/-- C7: on a zero-area site that declares sun and water areas, the Site
percentage helpers guard the division and return 0, but the zone partitioner
does not — its overlap expression divides by the zero total area and the
fault propagates out of the algorithm, being caught only at the application
entry point, which returns the no-design result. -/
theorem c7_zero_area_division :
    Site.get_total_area site7 = 0
    ∧ Site.get_sun_exposure_percentage site7 "full_sun" = 0
    ∧ Site.get_water_condition_percentage site7 "medium" = 0
    ∧ (create_site_zones site7).toOption = none
    ∧ app_generate_design site7 [plantU] defaultParams = none := by decide

/-- C8 counterexample: with non-negative category areas exceeding the total
area (200 on a 100-area site) the only emitted zone has area 400 > 100. -/
theorem c8_counterexample :
    (create_site_zones site8).toOption.map (fun zs => zs.map (fun z => z.area))
      = some [400]
    ∧ Site.get_total_area site8 = 100
    ∧ ¬ ((400 : ℚ) ≤ 100) := by decide

/-- Helper: when every pair's sun and water areas lie in [0, total], every
zone the generation loop emits has area at most the total. -/
theorem create_zones_go_area_le (total : ℚ) (st : Option String) (ph : ℚ) :
    ∀ (pairs : List ((String × ℚ) × (String × ℚ))) (n : Nat) (zs : List Zone),
      (∀ pr ∈ pairs, 0 ≤ pr.1.2 ∧ pr.1.2 ≤ total ∧ 0 ≤ pr.2.2 ∧ pr.2.2 ≤ total) →
      create_zones_go total st ph pairs n = .ok zs →
      ∀ z ∈ zs, z.area ≤ total
  | [], n, zs, _, h, z, hz => by
    rw [create_zones_go] at h
    cases h
    cases hz
  | pr :: rest, n, zs, hb, h, z, hz => by
    obtain ⟨⟨sun_type, sun_area⟩, ⟨water_type, water_area⟩⟩ := pr
    have hbp := hb _ (List.mem_cons_self _ _)
    obtain ⟨hs0, hsT, hw0, hwT⟩ := hbp
    have hbr : ∀ pr ∈ rest, 0 ≤ pr.1.2 ∧ pr.1.2 ≤ total ∧ 0 ≤ pr.2.2 ∧ pr.2.2 ≤ total :=
      fun pr hpr => hb pr (List.mem_cons_of_mem _ hpr)
    rw [create_zones_go] at h
    by_cases hT : total = 0
    · rw [if_pos hT] at h
      exact Except.noConfusion h
    · rw [if_neg hT] at h
      by_cases hpos : sun_area / total * (water_area / total) * total > 0
      · rw [if_pos hpos] at h
        have hTpos : 0 < total := lt_of_le_of_ne (le_trans hs0 hsT) (Ne.symm hT)
        revert h
        cases hrec : create_zones_go total st ph rest (n + 1) with
        | error e => intro h; exact Except.noConfusion h
        | ok zs' =>
          intro h
          injection h with h'
          subst h'
          rcases List.mem_cons.mp hz with hhd | htl
          · subst hhd
            show sun_area / total * (water_area / total) * total ≤ total
            have heq : sun_area / total * (water_area / total) * total
                = sun_area * water_area / total := by
              field_simp
              ring
            rw [heq, div_le_iff hTpos]
            exact mul_le_mul hsT hwT hw0 (le_of_lt hTpos)
          · exact create_zones_go_area_le total st ph rest (n + 1) zs' hbr hrec z htl
      · rw [if_neg hpos] at h
        exact create_zones_go_area_le total st ph rest n zs hbr h z hz

/-- C8 amended: for every site with no pre-defined zones whose sun and water
category areas are non-negative and also at most the site's total area,
every emitted zone has area at most the total area.  (Without the upper
bound on the category areas the claim fails, as the counterexample shows:
the independence estimate can exceed the total.) -/
theorem c8_amended (site : Site)
    (hzones : site.zones = [])
    (hsun : ∀ kv ∈ site.sun_exposure, 0 ≤ kv.2 ∧ kv.2 ≤ site.get_total_area)
    (hwater : ∀ kv ∈ site.water_conditions, 0 ≤ kv.2 ∧ kv.2 ≤ site.get_total_area) :
    ∀ zs, create_site_zones site = .ok zs → ∀ z ∈ zs, z.area ≤ site.get_total_area := by
  intro zs h z hz
  unfold create_site_zones at h
  rw [hzones] at h
  simp only [List.isEmpty_nil, Bool.not_true, Bool.false_eq_true, if_false] at h
  have hpairs : ∀ pr ∈ (site.sun_exposure.flatMap
      (fun se => site.water_conditions.map (fun wc => (se, wc)))),
      0 ≤ pr.1.2 ∧ pr.1.2 ≤ site.get_total_area
      ∧ 0 ≤ pr.2.2 ∧ pr.2.2 ≤ site.get_total_area := by
    intro pr hpr
    obtain ⟨se, hse, hw⟩ := List.mem_flatMap.mp hpr
    obtain ⟨wc, hwc, hprw⟩ := List.mem_map.mp hw
    subst hprw
    obtain ⟨h1, h2⟩ := hsun se hse
    obtain ⟨h3, h4⟩ := hwater wc hwc
    exact ⟨h1, h2, h3, h4⟩
  revert h
  cases hrec : create_zones_go site.get_total_area site.soil_type site.soil_ph
      (site.sun_exposure.flatMap
        (fun se => site.water_conditions.map (fun wc => (se, wc)))) 1 with
  | error e => intro h; exact Except.noConfusion h
  | ok zs' =>
    cases zs' with
    | nil =>
      intro h
      injection h with h'
      subst h'
      rcases List.mem_singleton.mp hz with rfl
      exact le_refl _
    | cons z0 zs'' =>
      intro h
      injection h with h'
      subst h'
      exact create_zones_go_area_le site.get_total_area site.soil_type site.soil_ph
        _ 1 _ hpairs hrec z hz

/-- C8 witness: the amended invariant instantiated at a concrete 100-area
site with in-range category areas, whose single generated zone has area
50 ≤ 100. -/
theorem c8_amended_witness :
    ({ id := "zone_1", sun_exposure := "A", water_condition := "X",
       soil_type := some "loam", soil_ph := 13 / 2, area := 50,
       percentage := 50 } : Zone).area
      ≤ Site.get_total_area
          { name := "s8w", width := 10, length := 10, soil_type := some "loam",
            soil_ph := 13 / 2, sun_exposure := [("A", 50)],
            water_conditions := [("X", 100)], hardiness_zone := none, zones := [] } :=
  c8_amended
    { name := "s8w", width := 10, length := 10, soil_type := some "loam",
      soil_ph := 13 / 2, sun_exposure := [("A", 50)],
      water_conditions := [("X", 100)], hardiness_zone := none, zones := [] }
    rfl (by decide) (by decide)
    [{ id := "zone_1", sun_exposure := "A", water_condition := "X",
       soil_type := some "loam", soil_ph := 13 / 2, area := 50, percentage := 50 }]
    (by decide)
    { id := "zone_1", sun_exposure := "A", water_condition := "X",
      soil_type := some "loam", soil_ph := 13 / 2, area := 50, percentage := 50 }
    (by decide)

/-- C9: the end-to-end scenario — one organism compatible with everything,
native to the target region, low maintenance, spread 2–3, on a site
producing a single zone of area 500 — yields quantity
floor(500/100 × 4) = 20, native percentage 100 and category-richness 10. -/
theorem c9_end_to_end :
    (generate_design defaultWeights site9 [plant9] defaultParams).toOption.map
      (fun d => (d.zones.map (fun zd => zd.plants.map (fun s => s.quantity)),
                 d.statistics.native_percentage, d.statistics.biodiversity_score))
      = some ([[20]], 100, 10) := by decide

/-- C10: with an empty organism catalog the application's design generation
returns the non-fatal no-design result (`none`) for every site and every
parameter choice, raising nothing. -/
theorem c10_empty_catalog (site : Site) (params : DesignParams) :
    app_generate_design site [] params = none := rfl

end Trees
